import Mathlib

/-!
Shallow embedding of `src/app.py`, a Streamlit dashboard over three MIMIC-III
style tables (CHARTEVENTS, ICUSTAYS, D_ITEMS).  Tables are lists of records;
nullable CSV cells are `Option`; pandas `NaN`/`NaT` results are `none`.
-/

namespace Dashboard

/-- One row of CHARTEVENTS.csv.  `itemid` and `valuenum` are nullable (the code
runs `dropna` on exactly these two columns); `error` is the CHARTEVENTS error
flag column, which `src/app.py` reads but never references. -/
structure ChartEvent where
  icustay_id : Int
  itemid : Option Int
  valuenum : Option ℚ
  error : Option Int
deriving DecidableEq, Repr

/-- One row of ICUSTAYS.csv (the columns selected at app.py:27).  `intime`
holds the result of `pd.to_datetime(..., errors='coerce')` (app.py:37): `none`
is `NaT`, i.e. a missing or unparseable admission time. -/
structure IcuStay where
  icustay_id : Int
  subject_id : Int
  los : ℚ
  first_careunit : String
  intime : Option Int
deriving DecidableEq, Repr

/-- One row of D_ITEMS.csv (the columns selected at app.py:32). -/
structure DItem where
  itemid : Int
  label : String
deriving DecidableEq, Repr

/-- One row of `merged_data` after the two inner merges (app.py:25-34). -/
structure MergedRow where
  icustay_id : Int
  itemid : Int
  valuenum : ℚ
  subject_id : Int
  los : ℚ
  first_careunit : String
  intime : Option Int
  label : String
deriving DecidableEq, Repr

/-- app.py:24 — `chart_events.dropna(subset=["itemid", "valuenum"])`: keep the
rows whose `itemid` and `valuenum` cells are both non-null. -/
def cleanEvents (evs : List ChartEvent) : List ChartEvent :=
  evs.filter (fun e => e.itemid.isSome && e.valuenum.isSome)

/-- app.py:25-34 — the two inner merges: cleaned events joined to
`icu_stays` on `icustay_id`, then to `d_items` on `itemid`.  An inner merge
pairs each left row with every right row whose key cell equals the left key
cell; a null key matches nothing. -/
def merged_data (evs : List ChartEvent) (stays : List IcuStay)
    (items : List DItem) : List MergedRow :=
  (cleanEvents evs).flatMap (fun e =>
    (stays.filter (fun s => s.icustay_id == e.icustay_id)).flatMap (fun s =>
      (items.filter (fun d => some d.itemid == e.itemid)).map (fun d =>
        { icustay_id := e.icustay_id
          itemid := d.itemid
          valuenum := e.valuenum.getD 0
          subject_id := s.subject_id
          los := s.los
          first_careunit := s.first_careunit
          intime := s.intime
          label := d.label })))

/-- Columns selected from `chart_events` at app.py:26. -/
def eventCols : List String := ["icustay_id", "itemid", "valuenum"]

/-- Columns selected from `icu_stays` at app.py:27. -/
def stayCols : List String := ["icustay_id", "subject_id", "los", "first_careunit", "intime"]

/-- Columns selected from `d_items` at app.py:32. -/
def itemCols : List String := ["itemid", "label"]

/-- Column propagation of `pd.merge(left, right, on=key)`: the left columns
followed by the right columns minus the shared key. -/
def mergeCols (l r : List String) (key : String) : List String :=
  l ++ r.filter (fun c => c ≠ key)

/-- Columns of `merged_data` after the two merges at app.py:25-34. -/
def mergedColumns : List String :=
  mergeCols (mergeCols eventCols stayCols "icustay_id") itemCols "itemid"

/-- Columns of `filtered_data`: a boolean row mask (app.py:71-76) keeps every
column of the frame it filters. -/
def filteredColumns : List String := mergedColumns

/-- The state of the four sidebar widgets (app.py:43-68): selected care units,
selected measurement labels, the integer LOS slider pair, and the admission
date range as timestamps. -/
structure FilterState where
  careUnits : List String
  measurements : List String
  losLo : Int
  losHi : Int
  dateLo : Int
  dateHi : Int
deriving DecidableEq, Repr

/-- app.py:72 — `merged_data["first_careunit"].isin(care_unit_filter)`. -/
def careUnitPred (f : FilterState) (r : MergedRow) : Bool :=
  f.careUnits.contains r.first_careunit

/-- app.py:73 — `merged_data["label"].isin(measurement_filter)`. -/
def labelPred (f : FilterState) (r : MergedRow) : Bool :=
  f.measurements.contains r.label

/-- app.py:74 — `merged_data["los"].between(los_range[0], los_range[1])`;
pandas `between` is inclusive of both bounds by default. -/
def losPred (f : FilterState) (r : MergedRow) : Bool :=
  decide ((f.losLo : ℚ) ≤ r.los) && decide (r.los ≤ (f.losHi : ℚ))

/-- app.py:75 — `merged_data["intime"].between(start, end)`; a `NaT` cell
compares false against any bound, so it never satisfies the predicate. -/
def datePred (f : FilterState) (r : MergedRow) : Bool :=
  match r.intime with
  | none => false
  | some t => decide (f.dateLo ≤ t) && decide (t ≤ f.dateHi)

/-- app.py:71-76 — the conjunction of the four filter masks. -/
def filtered_data (f : FilterState) (m : List MergedRow) : List MergedRow :=
  m.filter (fun r => careUnitPred f r && labelPred f r && losPred f r && datePred f r)

/-- pandas `Series.mean()`: `NaN` (here `none`) on an empty column, else the
arithmetic mean. -/
def mean (xs : List ℚ) : Option ℚ :=
  if xs = [] then none else some (xs.sum / (xs.length : ℚ))

/-- app.py:84-88 — the patient-count metric site: `nunique` of `subject_id`
when the column is present, else a warning (`st.warning`) and the value 0.
The second component records whether a warning was emitted. -/
def total_patients (cols : List String) (fd : List MergedRow) : Nat × Bool :=
  if cols.contains "subject_id" then
    ((fd.map MergedRow.subject_id).dedup.length, false)
  else
    (0, true)

/-- app.py:90 — `filtered_data["los"].mean() if "los" in filtered_data.columns
else 0`; no warning is emitted on either branch. -/
def average_los (cols : List String) (fd : List MergedRow) : Option ℚ × Bool :=
  if cols.contains "los" then
    (mean (fd.map MergedRow.los), false)
  else
    (some 0, false)

/-- app.py:91 — `filtered_data["label"].nunique() if "label" in
filtered_data.columns else 0`; no warning is emitted on either branch. -/
def unique_measurements (cols : List String) (fd : List MergedRow) : Nat × Bool :=
  if cols.contains "label" then
    ((fd.map MergedRow.label).dedup.length, false)
  else
    (0, false)

/-- app.py:100-106 — the pie-chart site warns instead of plotting when
`first_careunit` is absent. -/
def careUnitChart_warns (cols : List String) : Bool :=
  !(cols.contains "first_careunit")

/-- app.py:110-116 — the bar-chart site warns instead of plotting when
`label` is absent. -/
def topMeasurementsChart_warns (cols : List String) : Bool :=
  !(cols.contains "label")

/-- app.py:120-128 — the scatter-plot site warns instead of plotting when
`los` or `valuenum` is absent. -/
def scatterChart_warns (cols : List String) : Bool :=
  !(cols.contains "los" && cols.contains "valuenum")

/-- app.py:7-16 — `load_data` reads the three CSVs inside a
`try/except FileNotFoundError`: if any file is missing it reports an error
message (`st.error`) and returns `(None, None, None)`, modelled as `none`.
The boolean records whether the error message was shown. -/
def load_data (ce : Option (List ChartEvent)) (icu : Option (List IcuStay))
    (di : Option (List DItem)) :
    Option (List ChartEvent × List IcuStay × List DItem) × Bool :=
  match ce, icu, di with
  | some a, some b, some c => (some (a, b, c), false)
  | _, _, _ => (none, true)

/-- Outcome of one top-to-bottom run of the script: either `st.stop()` was
reached (app.py:21) or the pipeline ran and rendered the filtered view. -/
inductive ScriptResult where
  | halted : ScriptResult
  | rendered : List MergedRow → ScriptResult
deriving DecidableEq, Repr

/-- app.py:19-76 — the script body: load, halt on a missing file
(app.py:20-21), otherwise clean, merge and filter. -/
def runScript (ce : Option (List ChartEvent)) (icu : Option (List IcuStay))
    (di : Option (List DItem)) (f : FilterState) : ScriptResult :=
  match (load_data ce icu di).1 with
  | none => ScriptResult.halted
  | some (evs, stays, items) =>
      ScriptResult.rendered (filtered_data f (merged_data evs stays items))

/-- Modelled from the spec: the elapsed-time derivation (event time minus
admission time in seconds, divided by 3600) described in §4 and §8 of the
spec appears in other dashboard variants of this repository; `src/app.py`
retains no event-time column and computes no such field. -/
def elapsedHours (t0 t1 : Int) : ℚ :=
  ((t1 - t0 : Int) : ℚ) / 3600

/-- Claim C1, counterexample: the cleaning stage does not drop error-flagged
rows.  A CHARTEVENTS row with `error = 1` and non-null `itemid`/`valuenum`
survives `dropna` and its data appears in the joined table. -/
theorem C1_counterexample :
    (⟨1, some 10, some 80, some 1⟩ : ChartEvent).error = some 1 ∧
    (⟨1, some 10, some 80, some 1⟩ : ChartEvent) ∈ cleanEvents [⟨1, some 10, some 80, some 1⟩] ∧
    merged_data [⟨1, some 10, some 80, some 1⟩] [⟨1, 100, 5, "MICU", some 0⟩] [⟨10, "Heart Rate"⟩] =
      [⟨1, 10, 80, 100, 5, "MICU", some 0, "Heart Rate"⟩] := by
  decide

/-- Claim C1, amended: the cleaning stage before the join drops exactly the
rows with a null `itemid` or `valuenum`; whether the error flag equals 1 plays
no part, so error-flagged rows can appear in the joined and filtered output. -/
theorem C1_amended_theorem (evs : List ChartEvent) (e : ChartEvent) :
    e ∈ cleanEvents evs ↔ e ∈ evs ∧ e.itemid.isSome = true ∧ e.valuenum.isSome = true := by
  simp [cleanEvents, List.mem_filter]

/-- Claim C2, counterexample: on an empty filtered view (where the `los`
column is present, as it always is) `average_los` is pandas `mean` of an empty
column, i.e. `NaN` (`none`), not the placeholder 0. -/
theorem C2_counterexample :
    (average_los filteredColumns []).1 = none ∧ (average_los filteredColumns []).1 ≠ some 0 := by
  decide

/-- Claim C2, amended: when the filtered view is empty and the `los` column is
present, the reported average length of stay is `NaN` (undefined, `none`);
no warning is emitted and nothing raises.  The literal 0 is substituted only
when the `los` column is absent. -/
theorem C2_amended_theorem (cols : List String) (h : cols.contains "los" = true) :
    (average_los cols []).1 = none ∧ (average_los cols []).2 = false := by
  have h' : "los" ∈ cols := by simpa using h
  simp [average_los, h', mean]

/-- Witness for C2: the actual filtered columns contain `los`, and the
average over the empty view is `NaN` with no warning. -/
theorem C2_witness :
    filteredColumns.contains "los" = true ∧
    (average_los filteredColumns []).1 = none ∧ (average_los filteredColumns []).2 = false :=
  ⟨by decide, C2_amended_theorem filteredColumns (by decide)⟩

/-- Claim C3: the elapsed-hours derivation equals (T1 − T0) in seconds divided
by 3600, and a negative value is kept (not clamped to zero) when T1 < T0. -/
theorem C3_theorem (t0 t1 : Int) :
    elapsedHours t0 t1 = ((t1 : ℚ) - (t0 : ℚ)) / 3600 ∧
    (t1 < t0 → elapsedHours t0 t1 < 0) := by
  constructor
  · simp [elapsedHours]
  · intro h
    have h1 : ((t1 : ℚ) - (t0 : ℚ)) < 0 := by
      have : (t1 : ℚ) < (t0 : ℚ) := by exact_mod_cast h
      linarith
    have h2 : elapsedHours t0 t1 = ((t1 : ℚ) - (t0 : ℚ)) / 3600 := by simp [elapsedHours]
    rw [h2]
    exact div_neg_of_neg_of_pos h1 (by norm_num)

/-- Witness for C3: an event one hour before admission has negative elapsed
hours. -/
theorem C3_witness :
    (0 : Int) < 3600 ∧ elapsedHours 3600 0 < 0 :=
  ⟨by decide, (C3_theorem 3600 0).2 (by decide)⟩

/-- Claim C4: inner-join closure — every row of the joined table has an
`itemid` present in the item dictionary and an `icustay_id` present in the
stay table; rows whose keys have no match on either side are dropped. -/
theorem C4_theorem (evs : List ChartEvent) (stays : List IcuStay) (items : List DItem)
    (r : MergedRow) (h : r ∈ merged_data evs stays items) :
    (∃ d ∈ items, d.itemid = r.itemid) ∧ (∃ s ∈ stays, s.icustay_id = r.icustay_id) := by
  simp only [merged_data, List.mem_flatMap, List.mem_map, List.mem_filter] at h
  obtain ⟨e, he, s, ⟨hs, hskey⟩, d, ⟨hd, hdkey⟩, hr⟩ := h
  subst hr
  refine ⟨⟨d, hd, rfl⟩, ⟨s, hs, ?_⟩⟩
  simpa using hskey

/-- Witness for C4: a concrete joined row whose keys are matched in both
lookup tables. -/
theorem C4_witness :
    ((⟨1, 10, 80, 100, 5, "MICU", some 0, "Heart Rate"⟩ : MergedRow) ∈
      merged_data [⟨1, some 10, some 80, some 0⟩] [⟨1, 100, 5, "MICU", some 0⟩] [⟨10, "Heart Rate"⟩]) ∧
    (∃ d ∈ [(⟨10, "Heart Rate"⟩ : DItem)], d.itemid = (10 : Int)) ∧
    (∃ s ∈ [(⟨1, 100, 5, "MICU", some 0⟩ : IcuStay)], s.icustay_id = (1 : Int)) :=
  ⟨by decide,
   C4_theorem [⟨1, some 10, some 80, some 0⟩] [⟨1, 100, 5, "MICU", some 0⟩] [⟨10, "Heart Rate"⟩]
     ⟨1, 10, 80, 100, 5, "MICU", some 0, "Heart Rate"⟩ (by decide)⟩

/-- Claim C5: the filtered view never has more rows than the joined table, and
it is empty whenever any one of the four filter predicates matches no row of
the joined table. -/
theorem C5_theorem (f : FilterState) (m : List MergedRow) :
    (filtered_data f m).length ≤ m.length ∧
    (((∀ r ∈ m, careUnitPred f r = false) ∨ (∀ r ∈ m, labelPred f r = false) ∨
      (∀ r ∈ m, losPred f r = false) ∨ (∀ r ∈ m, datePred f r = false)) →
      (filtered_data f m).length = 0) := by
  constructor
  · exact List.length_filter_le _ m
  · intro h
    rw [List.length_eq_zero, filtered_data, List.filter_eq_nil_iff]
    intro r hr
    rcases h with h | h | h | h <;> simp [h r hr]

/-- Witness for C5: with no care unit selected, filtering a one-row table
yields zero rows. -/
theorem C5_witness :
    (filtered_data ⟨[], ["Heart Rate"], 0, 10, 0, 100⟩
        [⟨1, 10, 80, 100, 5, "MICU", some 0, "Heart Rate"⟩]).length ≤ 1 ∧
    (filtered_data ⟨[], ["Heart Rate"], 0, 10, 0, 100⟩
        [⟨1, 10, 80, 100, 5, "MICU", some 0, "Heart Rate"⟩]).length = 0 :=
  ⟨(C5_theorem _ _).1, (C5_theorem _ _).2 (Or.inl (by decide))⟩

/-- Claim C6: the length-of-stay interval is inclusive of both bounds — a row
whose `los` equals either end of the selected range (with the other three
predicates satisfied) is kept in the filtered view. -/
theorem C6_theorem (f : FilterState) (m : List MergedRow) (r : MergedRow)
    (hm : r ∈ m) (hcu : careUnitPred f r = true) (hlab : labelPred f r = true)
    (hdate : datePred f r = true) (hrange : f.losLo ≤ f.losHi)
    (hbound : r.los = (f.losLo : ℚ) ∨ r.los = (f.losHi : ℚ)) :
    r ∈ filtered_data f m := by
  have hq : (f.losLo : ℚ) ≤ (f.losHi : ℚ) := by exact_mod_cast hrange
  have hlos : losPred f r = true := by
    rcases hbound with h | h <;> simp [losPred, h, hq]
  simp [filtered_data, List.mem_filter, hm, hcu, hlab, hdate, hlos]

/-- Witness for C6: a row whose `los` equals the lower slider bound is kept. -/
theorem C6_witness :
    ((⟨1, 10, 80, 100, 0, "MICU", some 5, "Heart Rate"⟩ : MergedRow) ∈
      filtered_data ⟨["MICU"], ["Heart Rate"], 0, 10, 0, 100⟩
        [⟨1, 10, 80, 100, 0, "MICU", some 5, "Heart Rate"⟩]) :=
  C6_theorem ⟨["MICU"], ["Heart Rate"], 0, 10, 0, 100⟩
    [⟨1, 10, 80, 100, 0, "MICU", some 5, "Heart Rate"⟩]
    ⟨1, 10, 80, 100, 0, "MICU", some 5, "Heart Rate"⟩
    (by decide) (by decide) (by decide) (by decide) (by decide) (Or.inl (by decide))

/-- Claim C7, counterexample: when the `los` and `label` columns are absent,
their metric sites substitute zero silently — no user-visible warning is
emitted, contradicting the claim that every such site warns. -/
theorem C7_counterexample :
    average_los [] [] = (some 0, false) ∧ unique_measurements [] [] = (0, false) := by
  decide

/-- Claim C7, amended: with an expected column absent, only the `subject_id`
site emits a user-visible warning with its zero substitute; the `los` and
`label` sites substitute zero without any warning. -/
theorem C7_amended_theorem (cols : List String) (fd : List MergedRow) :
    (cols.contains "subject_id" = false → total_patients cols fd = (0, true)) ∧
    (cols.contains "los" = false → average_los cols fd = (some 0, false)) ∧
    (cols.contains "label" = false → unique_measurements cols fd = (0, false)) := by
  refine ⟨fun h => ?_, fun h => ?_, fun h => ?_⟩ <;>
    simp_all [total_patients, average_los, unique_measurements]

/-- Witness for C7: all three sites evaluated with no columns present. -/
theorem C7_witness :
    total_patients [] [] = (0, true) ∧ average_los [] [] = (some 0, false) ∧
    unique_measurements [] [] = (0, false) :=
  ⟨(C7_amended_theorem [] []).1 rfl, (C7_amended_theorem [] []).2.1 rfl,
   (C7_amended_theorem [] []).2.2 rfl⟩

/-- Claim C8: when any of the three input files is missing, `load_data`
reports a missing-file message and the script halts at `st.stop()`; no later
stage runs on a `None` table. -/
theorem C8_theorem (ce : Option (List ChartEvent)) (icu : Option (List IcuStay))
    (di : Option (List DItem)) (f : FilterState)
    (h : ce = none ∨ icu = none ∨ di = none) :
    (load_data ce icu di).2 = true ∧ runScript ce icu di f = ScriptResult.halted := by
  have hl : (load_data ce icu di).1 = none ∧ (load_data ce icu di).2 = true := by
    rcases h with h | h | h <;> subst h
    · cases icu <;> cases di <;> simp [load_data]
    · cases ce <;> cases di <;> simp [load_data]
    · cases ce <;> cases icu <;> simp [load_data]
  exact ⟨hl.2, by rw [runScript, hl.1]⟩

/-- Witness for C8: with the events file missing, the error message is shown
and the run halts. -/
theorem C8_witness :
    ((none : Option (List ChartEvent)) = none ∨ (some ([] : List IcuStay)) = none ∨
      (some ([] : List DItem)) = none) ∧
    (load_data none (some []) (some [])).2 = true ∧
    runScript none (some []) (some []) ⟨[], [], 0, 10, 0, 100⟩ = ScriptResult.halted :=
  ⟨Or.inl rfl, C8_theorem none (some []) (some []) ⟨[], [], 0, 10, 0, 100⟩ (Or.inl rfl)⟩

/-- Claim C9: after the two inner merges, the merged and filtered tables carry
the `subject_id`, `los`, `label` and `first_careunit` columns for every input
triple, so each missing-column warning branch is unreachable: no metric site
warns and no chart site skips its plot. -/
theorem C9_theorem :
    ("subject_id" ∈ filteredColumns ∧ "los" ∈ filteredColumns ∧
     "label" ∈ filteredColumns ∧ "first_careunit" ∈ filteredColumns) ∧
    (∀ fd : List MergedRow,
      (total_patients filteredColumns fd).2 = false ∧
      (average_los filteredColumns fd).2 = false ∧
      (unique_measurements filteredColumns fd).2 = false) ∧
    careUnitChart_warns filteredColumns = false ∧
    topMeasurementsChart_warns filteredColumns = false ∧
    scatterChart_warns filteredColumns = false := by
  refine ⟨by decide, fun fd => ?_, by decide, by decide, by decide⟩
  have h1 : "subject_id" ∈ filteredColumns := by decide
  have h2 : "los" ∈ filteredColumns := by decide
  have h3 : "label" ∈ filteredColumns := by decide
  simp [total_patients, average_los, unique_measurements, h1, h2, h3]

/-- Claim C10: a row whose admission time failed datetime parsing carries
`NaT` (`none`) after the coercion at ingestion; it never satisfies the
date-range predicate and so is absent from every filtered view. -/
theorem C10_theorem (f : FilterState) (m : List MergedRow) (r : MergedRow)
    (h : r.intime = none) :
    datePred f r = false ∧ r ∉ filtered_data f m := by
  have hd : datePred f r = false := by simp [datePred, h]
  refine ⟨hd, ?_⟩
  simp [filtered_data, List.mem_filter, hd]

/-- Witness for C10: a row with `NaT` admission time is excluded even though
every other predicate accepts it. -/
theorem C10_witness :
    (⟨1, 10, 80, 100, 5, "MICU", none, "Heart Rate"⟩ : MergedRow).intime = none ∧
    datePred ⟨["MICU"], ["Heart Rate"], 0, 10, 0, 100⟩
      ⟨1, 10, 80, 100, 5, "MICU", none, "Heart Rate"⟩ = false ∧
    (⟨1, 10, 80, 100, 5, "MICU", none, "Heart Rate"⟩ : MergedRow) ∉
      filtered_data ⟨["MICU"], ["Heart Rate"], 0, 10, 0, 100⟩
        [⟨1, 10, 80, 100, 5, "MICU", none, "Heart Rate"⟩] :=
  ⟨rfl, C10_theorem ⟨["MICU"], ["Heart Rate"], 0, 10, 0, 100⟩
    [⟨1, 10, 80, 100, 5, "MICU", none, "Heart Rate"⟩]
    ⟨1, 10, 80, 100, 5, "MICU", none, "Heart Rate"⟩ rfl⟩

end Dashboard
